import Mathlib

/-!
Verification development for the BBYOURS/Attendance-System repository.

The repository holds three near-duplicate Streamlit front-ends:
  - `src/attendance_system.py`            (the base revision, "v1" below)
  - `src/attendance-system/attendance_system.py`       ("v2" below)
  - `src/attendance-system-v3/attendance_system_v3.py` ("v3" below)

Each revision keeps a per-client session in `st.session_state` (keys
`session_token, employee_id, employee_name, role, last_activity`), calls a
single remote Google-Apps-Script endpoint through `call_gas_endpoint`,
guards views with `check_session` / `require_auth` / `require_role`, and
routes the top-level view in `main` on the session token and role.

The shallow embedding below models each of these functions directly from
the Python sources.  Conventions:
  - Python `None` / missing values become `Option _`; Python truthiness of
    a string-or-None value is `pyTruthy`.
  - Timestamps are integers counting seconds; `datetime.datetime.now()`
    becomes an explicit `now : Int` parameter and
    `(now - last_activity).total_seconds()` becomes `now - la`.
  - The HTTP layer is an explicit `Transport` oracle: it is the outcome of
    `requests.post(...); response.json()` for the payload the call would
    send (a parsed JSON reply, or one of the exception classes the Python
    code distinguishes).
  - Each `call_gas_endpoint` embedding returns the value the Python
    function returns, paired with a `Bool` that is `true` exactly when
    control reaches `requests.post`, i.e. when network I/O is attempted.
  - `st.rerun()` / `st.stop()` end the current render pass; a guarded
    access is therefore modelled as a state transformer plus an outcome
    flag (`GuardOutcome`), and `logout`'s effect is the clearing of the
    `SESSION_KEYS` fields (its best-effort backend notification has no
    client-visible state effect).
-/

set_option maxRecDepth 8192

/-- Python truthiness of a string-or-None session value: `None` and the
empty string are falsy, every other string is truthy. -/
def pyTruthy : Option String → Bool
  | none => false
  | some s => !s.isEmpty

/-- The parsed-JSON reply shape used by the revisions, one field per key the
Python code reads (`result.get('success')`, `result['sessionToken']`, ...).
Keys absent from a concrete backend reply correspond to the `get` defaults
the code uses (`False` / `None` / missing-key fields are only read on
branches where the code assumes them present). -/
structure ActionResult where
  success : Bool := false
  message : Option String := none
  valid : Bool := false
  requiresOTP : Bool := false
  requiresApproval : Bool := false
  sessionToken : String := ""
  employeeId : String := ""
  employeeName : String := ""
  role : String := ""
deriving Repr, DecidableEq

/-- Outcome of the HTTP exchange `requests.post(...); response.json()`:
either a parsed JSON reply, or one of the exception classes the Python
`except` clauses distinguish (`Timeout`, `ConnectionError`, a JSON decode
failure, or any other exception, the last two both landing in the generic
`except Exception` arm). -/
inductive Transport where
  | ok (r : ActionResult)
  | timeout
  | connError
  | jsonError (msg : String)
  | otherExc (msg : String)
deriving Repr, DecidableEq

/-- `true` when the transport raised instead of delivering a parsed reply. -/
def Transport.fails : Transport → Bool
  | .ok _ => false
  | _ => true

/-- Infix-of test on character lists: does `needle` occur contiguously in
the second list?  Models the Python `in` operator on strings. -/
def listContainsSub (needle : List Char) : List Char → Bool
  | [] => needle.isEmpty
  | c :: rest => List.isPrefixOf needle (c :: rest) || listContainsSub needle rest

/-- `strContainsSub hay needle` models Python `needle in hay`. -/
def strContainsSub (hay needle : String) : Bool :=
  listContainsSub needle.data hay.data

/-- The request payload built by every revision of `call_gas_endpoint`:
`{'action': action}` updated with `data`, plus the session token unless the
action is `login` or no truthy token is held. -/
def gas_payload (action : String) (data : List (String × String))
    (tok : Option String) : List (String × String) :=
  let base := ("action", action) :: data
  if action != "login" && pyTruthy tok then
    base ++ [("sessionToken", tok.getD "")]
  else
    base

/-- v1 `call_gas_endpoint` (src/attendance_system.py, lines 30-44).  The
endpoint URL was read unconditionally from secrets at module load; the
function body posts to it inside a bare `try`, and the `except Exception`
arm shows a UI error and returns `None`.  First component: the returned
value (`None` on any exception).  Second component: whether
`requests.post` was reached — in v1 it always is, whatever the configured
URL. -/
def call_gas_endpoint_v1 (gas_endpoint action : String)
    (data : List (String × String)) (tok : Option String) (t : Transport) :
    Option ActionResult × Bool :=
  let _payload := gas_payload action data tok
  let _url := gas_endpoint
  match t with
  | .ok r => (some r, true)
  | .timeout => (none, true)
  | .connError => (none, true)
  | .jsonError _ => (none, true)
  | .otherExc _ => (none, true)

/-- v2 configuration guard (lines 31-33): the secret read with default
`""`, rejected when empty or equal to the placeholder
`"YOUR_GAS_WEB_APP_URL"`. -/
def gas_not_configured_v2 (secrets : Option String) : Bool :=
  let ep := secrets.getD ""
  ep.isEmpty || ep == "YOUR_GAS_WEB_APP_URL"

/-- v2 `call_gas_endpoint` (src/attendance-system/attendance_system.py,
lines 27-51): fails fast with a "not configured" result before any network
use; otherwise posts with `timeout=10` and maps each exception class to a
`success=False` result with a fixed message.  Second component: whether
`requests.post` was reached. -/
def call_gas_endpoint_v2 (secrets : Option String) (action : String)
    (data : List (String × String)) (tok : Option String) (t : Transport) :
    ActionResult × Bool :=
  if gas_not_configured_v2 secrets then
    ({ success := false,
       message := some "System not configured. Please contact admin." }, false)
  else
    let _payload := gas_payload action data tok
    match t with
    | .ok r => (r, true)
    | .timeout =>
        ({ success := false,
           message := some "Connection timeout. Please try again." }, true)
    | .connError =>
        ({ success := false,
           message := some "Cannot connect to server. Check your internet." }, true)
    | .jsonError m =>
        ({ success := false, message := some ("System error: " ++ m) }, true)
    | .otherExc m =>
        ({ success := false, message := some ("System error: " ++ m) }, true)

/-- v3 configuration guard (lines 22-24): the secret read with default
`""`, rejected when empty or when the substring `"YOUR_GAS"` occurs in it. -/
def gas_not_configured_v3 (secrets : Option String) : Bool :=
  let ep := secrets.getD ""
  ep.isEmpty || strContainsSub ep "YOUR_GAS"

/-- v3 `call_gas_endpoint` (src/attendance-system-v3/attendance_system_v3.py,
lines 19-42): same shape as v2 with `timeout=30` and shorter messages. -/
def call_gas_endpoint_v3 (secrets : Option String) (action : String)
    (data : List (String × String)) (tok : Option String) (t : Transport) :
    ActionResult × Bool :=
  if gas_not_configured_v3 secrets then
    ({ success := false, message := some "System not configured" }, false)
  else
    let _payload := gas_payload action data tok
    match t with
    | .ok r => (r, true)
    | .timeout =>
        ({ success := false, message := some "Connection timeout" }, true)
    | .connError =>
        ({ success := false, message := some "Cannot connect to server" }, true)
    | .jsonError m =>
        ({ success := false, message := some ("System error: " ++ m) }, true)
    | .otherExc m =>
        ({ success := false, message := some ("System error: " ++ m) }, true)

/-- The `SESSION_KEYS` slots of `st.session_state` shared by all revisions
(v1/v2 additionally list a `clocked_in_today` key, but no revision ever
writes it — it stays `None` for the whole process lifetime and is omitted).
All keys are initialised to `None`. -/
structure SessionState where
  session_token : Option String := none
  employee_id : Option String := none
  employee_name : Option String := none
  role : Option String := none
  last_activity : Option Int := none
deriving Repr, DecidableEq

/-- The state after `logout` ran `st.session_state[key] = None` over
`SESSION_KEYS`, and also the initial state of a fresh client. -/
def clearedSession : SessionState := {}

/-- The idle test every revision performs inside `check_session`: true when
`last_activity` is set and `(now - last_activity).total_seconds() > 600`. -/
def idleExpired (s : SessionState) (now : Int) : Bool :=
  match s.last_activity with
  | some la => now - la > 600
  | none => false

/-- v1/v2 `check_session` (identical in both revisions; v1 lines 46-63, v2
lines 53-70): no token → invalid; idle for more than 600s → `logout()` and
invalid; otherwise refresh `last_activity` and return the backend
`checkSession` verdict (`result and result.get('valid', False)`, where a
`None` reply counts as invalid).  Returns the updated session paired with
the validity verdict. -/
def check_session_net (s : SessionState) (now : Int)
    (backend : Option ActionResult) : SessionState × Bool :=
  if !pyTruthy s.session_token then (s, false)
  else if idleExpired s now then (clearedSession, false)
  else
    ({ s with last_activity := some now },
     match backend with
     | some r => r.valid
     | none => false)

/-- v3 `check_session` (lines 44-56): same token and idle checks, but
purely local — no backend round-trip; a non-expired session is valid. -/
def check_session_v3 (s : SessionState) (now : Int) : SessionState × Bool :=
  if !pyTruthy s.session_token then (s, false)
  else if idleExpired s now then (clearedSession, false)
  else ({ s with last_activity := some now }, true)

/-- Outcome of an auth guard: either the render pass proceeds, or it was
halted (`st.stop()` / the `st.rerun()` raised inside `logout`). -/
inductive GuardOutcome where
  | proceed
  | halted
deriving Repr, DecidableEq

/-- v1/v2 `require_auth` (v1 lines 75-79, v2 lines 82-86): halt unless
`check_session()` holds.  State changes are those of `check_session`
(including the logout it performs on idle expiry). -/
def require_auth_net (s : SessionState) (now : Int)
    (backend : Option ActionResult) : SessionState × GuardOutcome :=
  match check_session_net s now backend with
  | (s1, true) => (s1, .proceed)
  | (s1, false) => (s1, .halted)

/-- v1/v2 `require_role` (v1 lines 81-86, v2 lines 88-93): `require_auth`,
then on a role mismatch show an error and `st.stop()` — the session fields
are left untouched on the mismatch branch. -/
def require_role_net (s : SessionState) (now : Int)
    (backend : Option ActionResult) (required : String) :
    SessionState × GuardOutcome :=
  match require_auth_net s now backend with
  | (s1, .halted) => (s1, .halted)
  | (s1, .proceed) =>
      if s1.role != some required then (s1, .halted) else (s1, .proceed)

/-- v3 `require_auth` (lines 68-73): halt unless `check_session()` holds;
on failure it additionally calls `logout()`, clearing every session key. -/
def require_auth_v3 (s : SessionState) (now : Int) :
    SessionState × GuardOutcome :=
  match check_session_v3 s now with
  | (s1, true) => (s1, .proceed)
  | (_, false) => (clearedSession, .halted)

/-- v3 `require_role` (lines 75-81): `require_auth`, then on a role
mismatch `logout()` (clearing the session) before halting. -/
def require_role_v3 (s : SessionState) (now : Int) (required : String) :
    SessionState × GuardOutcome :=
  match require_auth_v3 s now with
  | (s1, .halted) => (s1, .halted)
  | (s1, .proceed) =>
      if s1.role != some required then (clearedSession, .halted)
      else (s1, .proceed)

/-- The three top-level views the routing block of `main` can select. -/
inductive ViewId where
  | LOGIN
  | ADMIN_DASHBOARD
  | EMPLOYEE_DASHBOARD
deriving Repr, DecidableEq

/-- The routing block at the end of `main`, identical in all revisions
(v1 lines 431-437, v2 lines 539-545, v3 lines 930-936):
`if not st.session_state.session_token: login_page()` /
`elif st.session_state.role == 'ADMIN': admin_dashboard()` /
`else: employee_dashboard()`. -/
def route (s : SessionState) : ViewId :=
  if !pyTruthy s.session_token then .LOGIN
  else if s.role == some "ADMIN" then .ADMIN_DASHBOARD
  else .EMPLOYEE_DASHBOARD

/-- v2 client state relevant to the OTP pending flow: the session keys plus
the `otp_purpose` / `otp_action` markers that `attendance_tab` stores in
`st.session_state` when a clock action answers `requiresOTP` (v2 lines
193-196 and 212-215). -/
structure AppState2 where
  session : SessionState := {}
  otp_purpose : Option String := none
  otp_action : Option String := none
deriving Repr, DecidableEq

/-- v2 `attendance_tab` entering the pending flow (lines 193-196): on a
`requiresOTP` reply for `clockIn`, store purpose `EARLYCLOCKIN` and the
triggering action; symmetrically `OVERTIME`/`clockOut` (lines 212-215). -/
def enter_otp_flow_v2 (st : AppState2) (purpose action : String) : AppState2 :=
  { st with otp_purpose := some purpose, otp_action := some action }

/-- The Unicode codepoint intervals of the characters for which Python
`str.isdigit` is true, extracted from the Unicode character database of
CPython 3.11 (the characters with Numeric_Type Decimal or Digit): the
decimal digit runs of the world's scripts plus the non-decimal digit
characters — superscripts and subscripts (U+00B2..B3, U+00B9, U+2070,
U+2074..2089), circled and parenthesized digits, Ethiopic digits, and the
like. -/
def pyDigitRanges : List (Nat × Nat) := [
    (0x30, 0x39), (0xB2, 0xB3), (0xB9, 0xB9), (0x660, 0x669),
    (0x6F0, 0x6F9), (0x7C0, 0x7C9), (0x966, 0x96F), (0x9E6, 0x9EF),
    (0xA66, 0xA6F), (0xAE6, 0xAEF), (0xB66, 0xB6F), (0xBE6, 0xBEF),
    (0xC66, 0xC6F), (0xCE6, 0xCEF), (0xD66, 0xD6F), (0xDE6, 0xDEF),
    (0xE50, 0xE59), (0xED0, 0xED9), (0xF20, 0xF29), (0x1040, 0x1049),
    (0x1090, 0x1099), (0x1369, 0x1371), (0x17E0, 0x17E9), (0x1810, 0x1819),
    (0x1946, 0x194F), (0x19D0, 0x19DA), (0x1A80, 0x1A89), (0x1A90, 0x1A99),
    (0x1B50, 0x1B59), (0x1BB0, 0x1BB9), (0x1C40, 0x1C49), (0x1C50, 0x1C59),
    (0x2070, 0x2070), (0x2074, 0x2079), (0x2080, 0x2089), (0x2460, 0x2468),
    (0x2474, 0x247C), (0x2488, 0x2490), (0x24EA, 0x24EA), (0x24F5, 0x24FD),
    (0x24FF, 0x24FF), (0x2776, 0x277E), (0x2780, 0x2788), (0x278A, 0x2792),
    (0xA620, 0xA629), (0xA8D0, 0xA8D9), (0xA900, 0xA909), (0xA9D0, 0xA9D9),
    (0xA9F0, 0xA9F9), (0xAA50, 0xAA59), (0xABF0, 0xABF9), (0xFF10, 0xFF19),
    (0x104A0, 0x104A9), (0x10A40, 0x10A43), (0x10D30, 0x10D39), (0x10E60, 0x10E68),
    (0x11052, 0x1105A), (0x11066, 0x1106F), (0x110F0, 0x110F9), (0x11136, 0x1113F),
    (0x111D0, 0x111D9), (0x112F0, 0x112F9), (0x11450, 0x11459), (0x114D0, 0x114D9),
    (0x11650, 0x11659), (0x116C0, 0x116C9), (0x11730, 0x11739), (0x118E0, 0x118E9),
    (0x11950, 0x11959), (0x11C50, 0x11C59), (0x11D50, 0x11D59), (0x11DA0, 0x11DA9),
    (0x16A60, 0x16A69), (0x16AC0, 0x16AC9), (0x16B50, 0x16B59), (0x1D7CE, 0x1D7FF),
    (0x1E140, 0x1E149), (0x1E2F0, 0x1E2F9), (0x1E950, 0x1E959), (0x1F100, 0x1F10A),
    (0x1FBF0, 0x1FBF9)]

/-- Python `str.isdigit` on one character: true exactly when the codepoint
lies in one of the Unicode digit intervals above.  This is a strict
superset of the ASCII decimal digits `0-9` (which are its intersection
with ASCII, see the C7 theorem). -/
def pyIsDigitChar (c : Char) : Bool :=
  pyDigitRanges.any (fun r => r.1 ≤ c.toNat && c.toNat ≤ r.2)

/-- The OTP format check shared by v1 (line 323) and v2 (line 388):
`len(otp) != 6 or not otp.isdigit()` rejects; acceptance is therefore
length exactly 6 with every character passing Python `str.isdigit`
(`pyIsDigitChar`). -/
def otp_format_rejected (otp : String) : Bool :=
  otp.length != 6 || !(otp.data.all pyIsDigitChar)

/-- v1 `handle_otp_flow` submit branch (lines 322-332): returns
`(dispatched, shownSuccess)` where `dispatched` is true exactly when the
format check passed and the original action was re-sent over the network
with the OTP merged into the payload. -/
def otp_submit_v1 (otp : String) (backend : Option ActionResult) :
    Bool × Bool :=
  if otp_format_rejected otp then (false, false)
  else
    (true,
     match backend with
     | some r => r.success
     | none => false)

/-- v2 `handle_otp_flow` submit branch (lines 387-403): on a well-formed
OTP the original action is re-dispatched with the OTP; on a `success`
reply both pending markers are deleted.  Returns the new state and whether
the network dispatch happened. -/
def handle_otp_submit_v2 (st : AppState2) (otp : String)
    (backend : Option ActionResult) : AppState2 × Bool :=
  if otp_format_rejected otp then (st, false)
  else
    match backend with
    | some r =>
        if r.success then
          ({ st with otp_purpose := none, otp_action := none }, true)
        else (st, true)
    | none => (st, true)

/-- v2 `handle_otp_flow` cancel branch (lines 371-376): delete both pending
markers. -/
def handle_otp_cancel_v2 (st : AppState2) : AppState2 :=
  { st with otp_purpose := none, otp_action := none }

/-- v2 `logout` (lines 72-80) acting on the full client state: it assigns
`None` to every `SESSION_KEYS` slot — and only to those; the
`otp_purpose` / `otp_action` keys are not in `SESSION_KEYS` and keep their
values across the teardown. -/
def logout_v2 (st : AppState2) : AppState2 :=
  { st with session := clearedSession }

/-- Round-to-nearest-even of `a / b` (naturals, `b` positive) to an
integer: the rounding rule IEEE 754 arithmetic applies to the discarded
fraction. -/
def rnEvenDiv (a b : Nat) : Nat :=
  let q := a / b
  let r := a % b
  if 2 * r < b then q
  else if 2 * r > b then q + 1
  else if q % 2 == 0 then q else q + 1

/-- Fuel-driven floor base-2 logarithm (structural, so it evaluates inside
the kernel). -/
def log2fuel : Nat → Nat → Nat
  | 0, _ => 0
  | fuel+1, n => if n ≥ 2 then log2fuel fuel (n / 2) + 1 else 0

/-- `natLog2 n` is the floor of the base-2 logarithm of `n` (0 for 0). -/
def natLog2 (n : Nat) : Nat := log2fuel n n

/-- Floor of the base-2 logarithm of the positive fraction `n / d`: the
bit lengths of `n` and `d` pin it to two candidates, and one
cross-multiplication decides between them. -/
def floorLog2Frac (n d : Nat) : Int :=
  let a := natLog2 n
  let b := natLog2 d
  if n * 2 ^ b ≥ d * 2 ^ a then (a : Int) - b else (a : Int) - b - 1

/-- IEEE-754 binary64 rounding (round to nearest, ties to even) of the
nonnegative fraction `n / d`, returned as an exact fraction
`(numerator, denominator)` with a power-of-two denominator: the mantissa
is the 53-bit rounding of `n / d` scaled by `2 ^ (52 - e)` where
`2 ^ e ≤ n / d < 2 ^ (e + 1)`.  The exponent is unbounded, which agrees
with binary64 on the normal range the attendance data lives in (no
subnormals or overflow are modelled).  This model was cross-checked
against CPython's correctly-rounded float conversion. -/
def roundDoubleFrac (n d : Nat) : Nat × Nat :=
  let e := floorLog2Frac n d
  if e ≤ 52 then
    let s := (52 - e).toNat
    (rnEvenDiv (n * 2 ^ s) d, 2 ^ s)
  else
    let s := (e - 52).toNat
    (rnEvenDiv n (d * 2 ^ s) * 2 ^ s, 1)

/-- The exact rational value of a fraction pair. -/
def fracVal (p : Nat × Nat) : Rat := (p.1 : Rat) / (p.2 : Rat)

/-- The binary64 value the JSON layer stores for the decimal number
`n / d` written in the backend sheet (e.g. a price `150.10` arrives as
`doubleOfDecimal 1501 10`): Python's float conversion is correctly
rounded. -/
def doubleOfDecimal (n d : Nat) : Nat × Nat := roundDoubleFrac n d

/-- Python `int * float` multiplication (`quantity * unit_price`): the
integer converts exactly (quantities are at most 50) and the product is
binary64 multiplication, i.e. the exact product rounded to the nearest
double. -/
def pyIntTimesFloat (k : Nat) (x : Nat × Nat) : Nat × Nat :=
  roundDoubleFrac (k * x.1) x.2

/-- One row of the fetched inventory catalog, with the two fields
`inventory_tab` reads (`item['product']`, `item['sellingPrice']`).  The
price is the Python float the JSON parse produced — a binary64 value,
carried exactly as a fraction pair. -/
structure InventoryItem where
  product : String
  sellingPrice : Nat × Nat
deriving Repr, DecidableEq

/-- The `item_options` dictionary comprehension
`{item['product']: item for item in items}` followed by the lookup
`item_options[selected]`: for duplicate product names a Python dict keeps
the last occurrence, so the lookup scans the reversed list. -/
def item_options_lookup (items : List InventoryItem) (selected : String) :
    Option InventoryItem :=
  items.reverse.find? (fun it => it.product == selected)

/-- The `useInventory` request payload built by `inventory_tab`
(v1 lines 253-257, v2 lines 286-290, v3 lines 351-355): the selected
product name, the quantity widget value, and the unit price read from the
fetched item (a float, carried exactly). -/
structure UseInventoryPayload where
  item : String
  quantity : Nat
  unitPrice : Nat × Nat
deriving Repr, DecidableEq

/-- `inventory_tab` form submission, identical across revisions: look the
selected product up in the fetched catalog, display
`total_price = quantity * unit_price` (Python int-times-float, i.e.
binary64 multiplication), and on submit send `useInventory` with the
catalog unit price.  Returns the payload and the computed total, or
`none` when the selection is not in the catalog (v1's
"No items available" placeholder row, never submitted). -/
def inventory_submit (items : List InventoryItem) (selected : String)
    (quantity : Nat) : Option (UseInventoryPayload × (Nat × Nat)) :=
  match item_options_lookup items selected with
  | some it =>
      some ({ item := selected, quantity := quantity,
              unitPrice := it.sellingPrice },
            pyIntTimesFloat quantity it.sellingPrice)
  | none => none

/-- The session-changing events of one render pass: a successful (or
failed) `login` reply handled by `login_page`, the explicit `logout`
button, and a guarded access running `check_session` (which both refreshes
`last_activity` and performs the idle-timeout logout). -/
inductive SessionEvent where
  | loginReply (now : Int) (r : ActionResult) (typedEmployeeId : String)
  | logoutEv
  | guardedAccess (now : Int) (backend : Option ActionResult)
deriving Repr

/-- v2 session transition function.  `login_page` (lines 125-134) stores
`sessionToken`, the typed employee id, `employeeName`, `role` and
`last_activity = now` together on a `success` reply and changes nothing
otherwise; `logout` clears every key; a guarded access runs
`check_session`. -/
def session_step_v2 (s : SessionState) (e : SessionEvent) : SessionState :=
  match e with
  | .loginReply now r typedId =>
      if r.success then
        { session_token := some r.sessionToken
          employee_id := some typedId
          employee_name := some r.employeeName
          role := some r.role
          last_activity := some now }
      else s
  | .logoutEv => clearedSession
  | .guardedAccess now backend => (check_session_net s now backend).1

/-- v3 session transition function.  `login_page` (lines 147-156) stores
the employee id from the reply instead of the typed field; `check_session`
is the local-only variant. -/
def session_step_v3 (s : SessionState) (e : SessionEvent) : SessionState :=
  match e with
  | .loginReply now r _typedId =>
      if r.success then
        { session_token := some r.sessionToken
          employee_id := some r.employeeId
          employee_name := some r.employeeName
          role := some r.role
          last_activity := some now }
      else s
  | .logoutEv => clearedSession
  | .guardedAccess now _backend => (check_session_v3 s now).1

/-- Session states reachable in v2 from the fresh client state. -/
inductive Reachable2 : SessionState → Prop where
  | init : Reachable2 clearedSession
  | step (s : SessionState) (e : SessionEvent) :
      Reachable2 s → Reachable2 (session_step_v2 s e)

/-- Session states reachable in v3 from the fresh client state. -/
inductive Reachable3 : SessionState → Prop where
  | init : Reachable3 clearedSession
  | step (s : SessionState) (e : SessionEvent) :
      Reachable3 s → Reachable3 (session_step_v3 s e)

/-- The §4.2 invariant: the token slot and the role slot are populated
together. -/
def tokenRoleInv (s : SessionState) : Prop :=
  s.session_token.isSome ↔ s.role.isSome

/-- A sample authenticated employee session used by concrete witnesses. -/
def demoSession : SessionState :=
  { session_token := some "tok"
    employee_id := some "E1"
    employee_name := some "Jane"
    role := some "EMPLOYEE"
    last_activity := some 0 }

/-- C2: for an authenticated session, a guarded access (`check_session`)
at 601 seconds of idle time performs the logout transition (every session
key cleared) and reports the session invalid, in both the
backend-verifying variant (v1/v2) and the local variant (v3); at 599
seconds no logout happens and `last_activity` is refreshed to the current
time instead. -/
theorem C2_idle_timeout_601_599 (s : SessionState) (la now : Int)
    (b : Option ActionResult)
    (htok : pyTruthy s.session_token = true)
    (hla : s.last_activity = some la) :
    (now - la = 601 →
       (check_session_net s now b).2 = false ∧
       (check_session_net s now b).1 = clearedSession ∧
       (check_session_v3 s now).2 = false ∧
       (check_session_v3 s now).1 = clearedSession) ∧
    (now - la = 599 →
       (check_session_net s now b).1 = { s with last_activity := some now } ∧
       (check_session_v3 s now).1 = { s with last_activity := some now } ∧
       (check_session_v3 s now).2 = true) := by
  constructor
  · intro h
    have hexp : idleExpired s now = true := by
      simp [idleExpired, hla, h]
    simp [check_session_net, check_session_v3, htok, hexp]
  · intro h
    have hexp : idleExpired s now = false := by
      simp only [idleExpired, hla, decide_eq_false_iff_not]
      omega
    simp [check_session_net, check_session_v3, htok, hexp]

/-- Witness for C2 at a concrete session: idle 601 seconds is invalid,
idle 599 seconds refreshes `last_activity`. -/
theorem C2_idle_timeout_601_599_witness :
    (check_session_v3 demoSession 601).2 = false ∧
    (check_session_net demoSession 599 (some { valid := true })).1 =
      { demoSession with last_activity := some 599 } := by
  constructor
  · exact ((C2_idle_timeout_601_599 demoSession 0 601 (some { valid := true })
      (by decide) rfl).1 (by decide)).2.2.1
  · exact ((C2_idle_timeout_601_599 demoSession 0 599 (some { valid := true })
      (by decide) rfl).2 (by decide)).1

/-- C10: the idle comparison is strict (`> 600`), so a guarded access at
exactly 600 seconds of idle time does not expire the session — in every
revision the session is kept with `last_activity` refreshed, and the v3
check reports it valid. -/
theorem C10_idle_boundary_600 (s : SessionState) (la now : Int)
    (b : Option ActionResult)
    (htok : pyTruthy s.session_token = true)
    (hla : s.last_activity = some la)
    (h : now - la = 600) :
    (check_session_net s now b).1 = { s with last_activity := some now } ∧
    (check_session_v3 s now).1 = { s with last_activity := some now } ∧
    (check_session_v3 s now).2 = true := by
  have hexp : idleExpired s now = false := by
    simp only [idleExpired, hla, decide_eq_false_iff_not]
    omega
  simp [check_session_net, check_session_v3, htok, hexp]

/-- Witness for C10 at a concrete session with idle time exactly 600. -/
theorem C10_idle_boundary_600_witness :
    (check_session_v3 demoSession 600).1 =
      { demoSession with last_activity := some 600 } ∧
    (check_session_v3 demoSession 600).2 = true := by
  have h := C10_idle_boundary_600 demoSession 0 600 none (by decide) rfl
    (by decide)
  exact ⟨h.2.1, h.2.2⟩

/-- C4: the routing block of `main` evaluates exactly three ordered
branches — no truthy token routes to LOGIN, else role ADMIN routes to
ADMIN_DASHBOARD, else EMPLOYEE_DASHBOARD — and every session lands in one
of these three views. -/
theorem C4_route_three_branches (s : SessionState) :
    (pyTruthy s.session_token = false → route s = .LOGIN) ∧
    (pyTruthy s.session_token = true → s.role = some "ADMIN" →
        route s = .ADMIN_DASHBOARD) ∧
    (pyTruthy s.session_token = true → s.role ≠ some "ADMIN" →
        route s = .EMPLOYEE_DASHBOARD) ∧
    (route s = .LOGIN ∨ route s = .ADMIN_DASHBOARD ∨
        route s = .EMPLOYEE_DASHBOARD) := by
  refine ⟨?_, ?_, ?_, ?_⟩
  · intro h; simp [route, h]
  · intro h hr; simp [route, h, hr]
  · intro h hr; simp [route, h, hr]
  · unfold route
    split
    · exact Or.inl rfl
    · split
      · exact Or.inr (Or.inl rfl)
      · exact Or.inr (Or.inr rfl)

/-- Witness for C4: an anonymous session routes to LOGIN, the demo
employee session to EMPLOYEE_DASHBOARD. -/
theorem C4_route_three_branches_witness :
    route clearedSession = .LOGIN ∧
    route demoSession = .EMPLOYEE_DASHBOARD := by
  constructor
  · exact (C4_route_three_branches clearedSession).1 (by decide)
  · exact (C4_route_three_branches demoSession).2.2.1 (by decide) (by decide)

/-- The OTP format check accepts exactly the 6-character strings whose
characters all pass Python `str.isdigit`. -/
theorem otp_format_rejected_false_iff (otp : String) :
    otp_format_rejected otp = false ↔
      (otp.length = 6 ∧ otp.data.all pyIsDigitChar = true) := by
  simp [otp_format_rejected]

/-- C7 counterexample: Python `str.isdigit` is true for the superscript
two character U+00B2, so the 6-character input "²²²²²²" passes the
`len(otp) != 6 or not otp.isdigit()` validation and the original action
is dispatched over the network with it, although none of its characters
is a decimal digit.  This falsifies the claimed
"accepts iff 6 characters, every character a decimal digit" — and with it
that an input rejected by that decimal-digit criterion is never sent —
at a concrete input the free-text OTP field (bounded only in length) can
receive. -/
theorem C7_counterexample :
    (otp_submit_v1 "²²²²²²" none).1 = true ∧
    "²²²²²²".data.all Char.isDigit = false := by
  decide

/-- C7 amended: the OTP validation accepts an input exactly when it has
6 characters and every character passes Python `str.isdigit` — on ASCII
characters precisely the decimal digits 0-9, but also the non-decimal
Unicode digit characters; an input failing this check is never dispatched
over the network, and the cited inputs behave as the spec says ("12a45"
and "12345" rejected and not sent, "123456" accepted and dispatched). -/
theorem C7_otp_validation_isdigit :
    (∀ (otp : String) (b : Option ActionResult) (st : AppState2),
        (handle_otp_submit_v2 st otp b).2 = true ↔
          (otp.length = 6 ∧ otp.data.all pyIsDigitChar = true)) ∧
    (∀ (otp : String) (b : Option ActionResult),
        (otp_submit_v1 otp b).1 = true ↔
          (otp.length = 6 ∧ otp.data.all pyIsDigitChar = true)) ∧
    (∀ n, n < 128 → pyIsDigitChar (Char.ofNat n) = (Char.ofNat n).isDigit) ∧
    (otp_submit_v1 "12a45" none).1 = false ∧
    (otp_submit_v1 "12345" none).1 = false ∧
    (otp_submit_v1 "123456" none).1 = true := by
  refine ⟨?_, ?_, by decide, by decide, by decide, by decide⟩
  · intro otp b st
    rw [← otp_format_rejected_false_iff]
    by_cases h : otp_format_rejected otp
    · simp [handle_otp_submit_v2, h]
    · rcases b with _ | r
      · simp [handle_otp_submit_v2, h]
      · by_cases hs : r.success <;>
          simp [handle_otp_submit_v2, h, hs]
  · intro otp b
    rw [← otp_format_rejected_false_iff]
    by_cases h : otp_format_rejected otp <;> simp [otp_submit_v1, h]

/-- Witness for the amended C7: the accepted OTP "123456" is
dispatched. -/
theorem C7_otp_validation_isdigit_witness :
    (handle_otp_submit_v2 {} "123456" none).2 = true := by
  exact (C7_otp_validation_isdigit.1 "123456" none {}).mpr (by decide)

/-- Step preservation of the token-role invariant for v2 transitions. -/
theorem tokenRoleInv_step_v2 (s : SessionState) (e : SessionEvent)
    (h : tokenRoleInv s) : tokenRoleInv (session_step_v2 s e) := by
  cases e with
  | loginReply now r tid =>
      by_cases hs : r.success
      · simp [session_step_v2, hs, tokenRoleInv]
      · simpa [session_step_v2, hs] using h
  | logoutEv => simp [session_step_v2, tokenRoleInv, clearedSession]
  | guardedAccess now b =>
      simp only [session_step_v2, check_session_net]
      by_cases h1 : pyTruthy s.session_token
      · by_cases h2 : idleExpired s now
        · simp [h1, h2, tokenRoleInv, clearedSession]
        · simpa [h1, h2, tokenRoleInv] using h
      · simpa [h1] using h

/-- Step preservation of the token-role invariant for v3 transitions. -/
theorem tokenRoleInv_step_v3 (s : SessionState) (e : SessionEvent)
    (h : tokenRoleInv s) : tokenRoleInv (session_step_v3 s e) := by
  cases e with
  | loginReply now r tid =>
      by_cases hs : r.success
      · simp [session_step_v3, hs, tokenRoleInv]
      · simpa [session_step_v3, hs] using h
  | logoutEv => simp [session_step_v3, tokenRoleInv, clearedSession]
  | guardedAccess now b =>
      simp only [session_step_v3, check_session_v3]
      by_cases h1 : pyTruthy s.session_token
      · by_cases h2 : idleExpired s now
        · simp [h1, h2, tokenRoleInv, clearedSession]
        · simpa [h1, h2, tokenRoleInv] using h
      · simpa [h1] using h

/-- C3: in every reachable session state of v2 and of v3 the token slot is
populated exactly when the role slot is; a successful login stores token,
employee id, employee name, role and `last_activity` in one assignment
block, and logout clears all of them to the fresh state. -/
theorem C3_token_role_invariant :
    (∀ s, Reachable2 s → tokenRoleInv s) ∧
    (∀ s, Reachable3 s → tokenRoleInv s) ∧
    (∀ (s : SessionState) (now : Int) (r : ActionResult) (tid : String),
        r.success = true →
        session_step_v2 s (.loginReply now r tid) =
          { session_token := some r.sessionToken
            employee_id := some tid
            employee_name := some r.employeeName
            role := some r.role
            last_activity := some now }) ∧
    (∀ s, session_step_v2 s .logoutEv = clearedSession ∧
          session_step_v3 s .logoutEv = clearedSession) := by
  refine ⟨?_, ?_, ?_, ?_⟩
  · intro s h
    induction h with
    | init => simp [tokenRoleInv, clearedSession]
    | step s e _ ih => exact tokenRoleInv_step_v2 s e ih
  · intro s h
    induction h with
    | init => simp [tokenRoleInv, clearedSession]
    | step s e _ ih => exact tokenRoleInv_step_v3 s e ih
  · intro s now r tid hs
    simp [session_step_v2, hs]
  · intro s
    exact ⟨rfl, rfl⟩

/-- Witness for C3: the invariant holds in the state reached by a
successful ADMIN login from the fresh client. -/
theorem C3_token_role_invariant_witness :
    tokenRoleInv (session_step_v2 clearedSession
      (.loginReply 0
        { success := true, sessionToken := "abc",
          employeeName := "Jane", role := "ADMIN" } "E1")) :=
  C3_token_role_invariant.1 _ (Reachable2.step _ _ Reachable2.init)

/-- The generic-exception message of v2/v3 is never the empty string. -/
theorem sysError_message_ne_empty (m : String) :
    ("System error: " ++ m) ≠ "" := by
  intro h
  have h0 : ("System error: " ++ m).length = 0 := by rw [h]; rfl
  rw [String.length_append] at h0
  have h14 : ("System error: " : String).length = 14 := rfl
  omega

/-- C1 counterexample: in the base revision (src/attendance_system.py),
`call_gas_endpoint` on a request timeout does not return a failure
ActionResult — it returns `None`, a non-ActionResult sentinel, to its
caller (several callers, e.g. the `else` arm of `login_page`, then crash
on `None.get`).  This falsifies the claim as stated over the whole
repository at the concrete input action `clockIn`, empty extra payload,
held token `tok`, timeout transport. -/
theorem C1_counterexample :
    (call_gas_endpoint_v1 "https://gas.example/exec" "clockIn" [] (some "tok")
        Transport.timeout).1 = none := rfl

/-- C1 amended: in the attendance-system (v2) and attendance-system-v3
revisions, with a configured endpoint, every transport exception —
timeout, connection failure, JSON decode failure, or any other exception —
yields a `success=false` ActionResult carrying a non-empty human-readable
message; no exception propagates.  (The base revision instead returns the
`None` sentinel, see the counterexample.) -/
theorem C1_transport_errors_normalized (s2 s3 : Option String)
    (action : String) (data : List (String × String)) (tok : Option String)
    (t : Transport)
    (h2 : gas_not_configured_v2 s2 = false)
    (h3 : gas_not_configured_v3 s3 = false)
    (ht : t.fails = true) :
    ((call_gas_endpoint_v2 s2 action data tok t).1.success = false ∧
     ∃ m, (call_gas_endpoint_v2 s2 action data tok t).1.message = some m ∧
          m ≠ "") ∧
    ((call_gas_endpoint_v3 s3 action data tok t).1.success = false ∧
     ∃ m, (call_gas_endpoint_v3 s3 action data tok t).1.message = some m ∧
          m ≠ "") := by
  cases t with
  | ok r => simp [Transport.fails] at ht
  | timeout =>
      refine ⟨⟨?_, "Connection timeout. Please try again.", ?_, by decide⟩,
              ⟨?_, "Connection timeout", ?_, by decide⟩⟩ <;>
        simp [call_gas_endpoint_v2, call_gas_endpoint_v3, h2, h3]
  | connError =>
      refine ⟨⟨?_, "Cannot connect to server. Check your internet.", ?_,
               by decide⟩,
              ⟨?_, "Cannot connect to server", ?_, by decide⟩⟩ <;>
        simp [call_gas_endpoint_v2, call_gas_endpoint_v3, h2, h3]
  | jsonError m =>
      refine ⟨⟨?_, "System error: " ++ m, ?_, sysError_message_ne_empty m⟩,
              ⟨?_, "System error: " ++ m, ?_, sysError_message_ne_empty m⟩⟩ <;>
        simp [call_gas_endpoint_v2, call_gas_endpoint_v3, h2, h3]
  | otherExc m =>
      refine ⟨⟨?_, "System error: " ++ m, ?_, sysError_message_ne_empty m⟩,
              ⟨?_, "System error: " ++ m, ?_, sysError_message_ne_empty m⟩⟩ <;>
        simp [call_gas_endpoint_v2, call_gas_endpoint_v3, h2, h3]

/-- Witness for the amended C1: a timeout against a configured endpoint
yields `success=false` in both v2 and v3. -/
theorem C1_transport_errors_normalized_witness :
    (call_gas_endpoint_v2 (some "https://gas.example/exec") "clockIn" []
        (some "tok") Transport.timeout).1.success = false ∧
    (call_gas_endpoint_v3 (some "https://gas.example/exec") "clockIn" []
        (some "tok") Transport.timeout).1.success = false := by
  have h := C1_transport_errors_normalized (some "https://gas.example/exec")
    (some "https://gas.example/exec") "clockIn" [] (some "tok")
    Transport.timeout (by decide) (by decide) rfl
  exact ⟨h.1.1, h.2.1⟩

/-- C5 counterexample: in the base revision there is no configuration
guard inside `call_gas_endpoint` — with the placeholder endpoint value the
call still reaches `requests.post` (network I/O is attempted; the post to
the placeholder URL then fails at transport level) and the caller gets
`None`, not a failure result mentioning "not configured".  This falsifies
the claim as stated over the whole repository. -/
theorem C5_counterexample :
    (call_gas_endpoint_v1 "YOUR_GAS_WEB_APP_URL" "login" [] none
        Transport.connError).2 = true ∧
    (call_gas_endpoint_v1 "YOUR_GAS_WEB_APP_URL" "login" [] none
        Transport.connError).1 = none :=
  ⟨rfl, rfl⟩

/-- C5 amended: in the attendance-system (v2) and attendance-system-v3
revisions, when the endpoint is unconfigured (secret absent, empty, or the
revision's placeholder pattern), every call fails fast with a
`success=false` result whose message contains "not configured" and
performs no network I/O. -/
theorem C5_not_configured_fails_fast (s2 s3 : Option String)
    (action : String) (data : List (String × String)) (tok : Option String)
    (t : Transport)
    (h2 : gas_not_configured_v2 s2 = true)
    (h3 : gas_not_configured_v3 s3 = true) :
    ((call_gas_endpoint_v2 s2 action data tok t).1.success = false ∧
     strContainsSub
       ((call_gas_endpoint_v2 s2 action data tok t).1.message.getD "")
       "not configured" = true ∧
     (call_gas_endpoint_v2 s2 action data tok t).2 = false) ∧
    ((call_gas_endpoint_v3 s3 action data tok t).1.success = false ∧
     strContainsSub
       ((call_gas_endpoint_v3 s3 action data tok t).1.message.getD "")
       "not configured" = true ∧
     (call_gas_endpoint_v3 s3 action data tok t).2 = false) := by
  refine ⟨⟨?_, ?_, ?_⟩, ⟨?_, ?_, ?_⟩⟩ <;>
    simp [call_gas_endpoint_v2, call_gas_endpoint_v3, h2, h3] <;>
    decide

/-- Witness for the amended C5: with the placeholder secret value, a v2
`login` call fails fast without network I/O, and likewise for v3 with an
absent secret. -/
theorem C5_not_configured_fails_fast_witness :
    (call_gas_endpoint_v2 (some "YOUR_GAS_WEB_APP_URL") "login" [] none
        Transport.connError).2 = false ∧
    (call_gas_endpoint_v3 none "login" [] none Transport.connError).2 =
      false := by
  have h := C5_not_configured_fails_fast (some "YOUR_GAS_WEB_APP_URL") none
    "login" [] none Transport.connError (by decide) (by decide)
  exact ⟨h.1.2.2, h.2.2.2⟩

/-- C6 counterexample: in the base and attendance-system revisions,
`require_role` on a role mismatch only shows an error and halts rendering
(`st.stop()`); it does not force the logout transition — at the concrete
authenticated EMPLOYEE session below, a `require_role('ADMIN')` access
halts while the session token is still present, so the session was not
cleared.  This falsifies the claim as stated over the whole repository. -/
theorem C6_counterexample :
    (require_role_net demoSession 0 (some { valid := true }) "ADMIN").2 =
      GuardOutcome.halted ∧
    SessionState.session_token
      (require_role_net demoSession 0 (some { valid := true }) "ADMIN").1 =
      some "tok" := by
  decide

/-- C6 amended: on an authenticated, non-expired session whose role
differs from the required one, `require_role` passes `require_auth` and
then halts the render pass in every revision; only the v3 revision
additionally forces the logout transition (clearing every session key) —
the base and attendance-system revisions leave the session fields intact
(only `last_activity` is refreshed by the auth check). -/
theorem C6_require_role_mismatch (s : SessionState) (la now : Int)
    (b : ActionResult) (required : String)
    (htok : pyTruthy s.session_token = true)
    (hla : s.last_activity = some la)
    (hfresh : now - la ≤ 600)
    (hvalid : b.valid = true)
    (hrole : s.role ≠ some required) :
    require_role_net s now (some b) required =
      ({ s with last_activity := some now }, .halted) ∧
    require_role_v3 s now required = (clearedSession, .halted) := by
  have hexp : idleExpired s now = false := by
    simp only [idleExpired, hla, decide_eq_false_iff_not]
    omega
  have hcheck : check_session_net s now (some b) =
      ({ s with last_activity := some now }, true) := by
    simp [check_session_net, htok, hexp, hvalid]
  have hcheck3 : check_session_v3 s now =
      ({ s with last_activity := some now }, true) := by
    simp [check_session_v3, htok, hexp]
  have hbne : (({ s with last_activity := some now } : SessionState).role
      != some required) = true := by
    simpa [bne_iff_ne] using hrole
  constructor
  · rw [require_role_net, require_auth_net, hcheck]
    simp [hbne]
  · rw [require_role_v3, require_auth_v3, hcheck3]
    simp [hbne]

/-- Witness for the amended C6 at the concrete demo EMPLOYEE session with
required role ADMIN. -/
theorem C6_require_role_mismatch_witness :
    require_role_net demoSession 0 (some { valid := true }) "ADMIN" =
      ({ demoSession with last_activity := some 0 }, .halted) ∧
    require_role_v3 demoSession 0 "ADMIN" = (clearedSession, .halted) :=
  C6_require_role_mismatch demoSession 0 0 { valid := true } "ADMIN"
    (by decide) rfl (by decide) rfl (by decide)

/-- A v2 client state holding a pending OTP flow, used by the C8
counterexample and witness. -/
def demoPending : AppState2 :=
  { session := demoSession
    otp_purpose := some "OVERTIME"
    otp_action := some "clockOut" }

/-- C8 counterexample: the v2 `logout` assigns `None` only to the
`SESSION_KEYS` slots; `otp_purpose` / `otp_action` are not among them, so
after a session teardown the pending-flow marker is still present (and
`attendance_tab` would re-enter the OTP form from it on the next
authenticated render).  At the concrete state below, logout clears the
token but leaves `otp_purpose = some "OVERTIME"`.  This falsifies the
"cleared on session teardown" part of the claim. -/
theorem C8_counterexample :
    (logout_v2 demoPending).otp_purpose = some "OVERTIME" ∧
    (logout_v2 demoPending).session.session_token = none := by
  decide

/-- C8 amended: the pending-flow marker is cleared on OTP verification
success and on explicit cancel; session teardown (logout, which the
idle-timeout path also funnels through) clears exactly the `SESSION_KEYS`
slots and leaves the `otp_purpose` / `otp_action` markers unchanged. -/
theorem C8_pending_flow_clearing (st : AppState2) (otp : String)
    (r : ActionResult)
    (hfmt : otp_format_rejected otp = false)
    (hsucc : r.success = true) :
    ((handle_otp_submit_v2 st otp (some r)).1.otp_purpose = none ∧
     (handle_otp_submit_v2 st otp (some r)).1.otp_action = none) ∧
    ((handle_otp_cancel_v2 st).otp_purpose = none ∧
     (handle_otp_cancel_v2 st).otp_action = none) ∧
    ((logout_v2 st).session = clearedSession ∧
     (logout_v2 st).otp_purpose = st.otp_purpose ∧
     (logout_v2 st).otp_action = st.otp_action) := by
  refine ⟨⟨?_, ?_⟩, ⟨rfl, rfl⟩, ⟨rfl, rfl, rfl⟩⟩ <;>
    simp [handle_otp_submit_v2, hfmt, hsucc]

/-- Witness for the amended C8: at the concrete pending state, a
successful verification clears the marker while logout leaves it. -/
theorem C8_pending_flow_clearing_witness :
    (handle_otp_submit_v2 demoPending "123456"
        (some { success := true })).1.otp_purpose = none ∧
    (logout_v2 demoPending).otp_purpose = demoPending.otp_purpose := by
  have h := C8_pending_flow_clearing demoPending "123456" { success := true }
    (by decide) rfl
  exact ⟨h.1.1, h.2.2.2.1⟩

/-- C9 counterexample: the catalog price arrives as a Python float, and
`total_price = quantity * unit_price` is binary64 arithmetic.  For the
ordinary decimal price 150.10 (not representable in binary) and
quantity 3, the program's total is
7921761375800524 / 2^44 = 450.29999999999995..., which differs both from
the exact `quantity × sellingPrice` for the catalog's decimal value
(450.30) and from 3 times the stored float itself — so the universal
"computes total = quantity × sellingPrice exactly, no rounding drift"
fails on the program at this concrete input. -/
theorem C9_counterexample :
    inventory_submit
        [{ product := "Gadget", sellingPrice := doubleOfDecimal 1501 10 }]
        "Gadget" 3 =
      some ({ item := "Gadget", quantity := 3,
              unitPrice := doubleOfDecimal 1501 10 },
            pyIntTimesFloat 3 (doubleOfDecimal 1501 10)) ∧
    fracVal (pyIntTimesFloat 3 (doubleOfDecimal 1501 10)) ≠
      (4503 : Rat) / 10 ∧
    fracVal (pyIntTimesFloat 3 (doubleOfDecimal 1501 10)) ≠
      3 * fracVal (doubleOfDecimal 1501 10) := by
  have h1 : doubleOfDecimal 1501 10 = (5281174250533683, 35184372088832) := by
    decide
  have h2 : pyIntTimesFloat 3 (5281174250533683, 35184372088832) =
      (7921761375800524, 17592186044416) := by
    decide
  refine ⟨by decide, ?_, ?_⟩
  · rw [h1, h2]
    norm_num [fracVal]
  · rw [h1, h2]
    norm_num [fracVal]

/-- C9 amended: for any fetched catalog and any quantity in [1, 50], the
`unitPrice` field of the `useInventory` payload is the `sellingPrice` of
the selected item looked up in the most recently fetched catalog — the
binary64 value the JSON parse stored, never a user-editable value (the
form offers no price input) — and the displayed total is the binary64
product `quantity * sellingPrice`, which is exact whenever the exact
product is representable (in particular at the spec's instance
150.00 × 3 = 450.00, see the witness) but rounds for non-representable
decimal prices such as 150.10 (see the counterexample). -/
theorem C9_inventory_price_provenance (items : List InventoryItem)
    (selected : String) (qty : Nat) (it : InventoryItem)
    (hsel : item_options_lookup items selected = some it)
    (h1 : 1 ≤ qty) (h50 : qty ≤ 50) :
    inventory_submit items selected qty =
      some ({ item := selected, quantity := qty,
              unitPrice := it.sellingPrice },
            pyIntTimesFloat qty it.sellingPrice) := by
  simp [inventory_submit, hsel]

/-- Witness for the amended C9 at the spec's instance: one catalog row
with selling price 150.00 (exactly representable), quantity 3: the unit
price forwarded is the catalog price, whose value is exactly 150, and the
computed total is exactly 450 — no drift. -/
theorem C9_inventory_price_provenance_witness :
    inventory_submit
        [{ product := "Widget", sellingPrice := doubleOfDecimal 150 1 }]
        "Widget" 3 =
      some ({ item := "Widget", quantity := 3,
              unitPrice := doubleOfDecimal 150 1 },
            pyIntTimesFloat 3 (doubleOfDecimal 150 1)) ∧
    fracVal (doubleOfDecimal 150 1) = 150 ∧
    fracVal (pyIntTimesFloat 3 (doubleOfDecimal 150 1)) = 450 := by
  have h := C9_inventory_price_provenance
    [{ product := "Widget", sellingPrice := doubleOfDecimal 150 1 }]
    "Widget" 3 { product := "Widget", sellingPrice := doubleOfDecimal 150 1 }
    (by decide) (by decide) (by decide)
  refine ⟨h, ?_, ?_⟩
  · have h3 : doubleOfDecimal 150 1 = (5277655813324800, 35184372088832) := by
      decide
    rw [h3]
    norm_num [fracVal]
  · have h4 : pyIntTimesFloat 3 (doubleOfDecimal 150 1) =
        (7916483719987200, 17592186044416) := by
      decide
    rw [h4]
    norm_num [fracVal]
